import Mathlib

/-!
Verification of the format-selection and filename-resolution workflow of
`ytdlp-icli.py` (an interactive command-line wrapper around yt-dlp).

The Python source is shallowly embedded: JSON dictionary values that the
program reads are modelled by the `JVal` type (distinguishing a missing key
from a key bound to JSON `null`), and every function of the source that the
claims touch is translated into a pure Lean function.
Process spawning is modelled by passing the observed process result
(return code, parsed stdout, stderr) as an argument, and `exit()` by an
`Except` error result.

Numeric JSON values are modelled as rationals.  Python float parsing of
strings is modelled as failing (the probe tool emits numbers or null for the
numeric attributes fed to `get_quantity`, never numeric strings), and
`isdigit` is modelled over ASCII digits (the decimal digits that actual
yt-dlp format ids use).
-/

/-- A value read out of a parsed-JSON dictionary entry.  `absent` models a
missing key, `null` a key explicitly bound to JSON `null` (Python `None`);
`dict.get` yields its default only for `absent`, while keyword lookup in
`str.format` raises `KeyError` only for `absent`.  `quant` models a
`quantiphy.Quantity` object (a float subclass carrying a unit model string),
which `get_quantity` stores back into the dictionary. -/
inductive JVal where
  | absent : JVal
  | null : JVal
  | str : String → JVal
  | num : Rat → JVal
  | quant : Rat → String → JVal
deriving DecidableEq, Repr

/-- One entry of the probe metadata `formats` list (source: the dictionaries
iterated over in `request_ytdlp_metadata`, lines 102-109, and mutated in
`pick_yt_audio_format` / `pick_yt_video_format`).  Every key the program
reads or writes is a field; all default to `absent`. -/
structure Fmt where
  format_id : JVal := .absent
  acodec : JVal := .absent
  vcodec : JVal := .absent
  audio_ext : JVal := .absent
  video_ext : JVal := .absent
  language : JVal := .absent
  filesize : JVal := .absent
  abr : JVal := .absent
  asr : JVal := .absent
  vbr : JVal := .absent
  fps : JVal := .absent
  width : JVal := .absent
  height : JVal := .absent
  wxh : JVal := .absent
deriving DecidableEq, Repr

/-- One entry of the probe metadata `thumbnails` list (source: lines 111-113). -/
structure Thumb where
  url : JVal := .absent
  resolution : JVal := .absent
deriving DecidableEq, Repr

/-- Python truthiness of a dictionary value as seen through `dict.get`:
`None` (a missing key or a null value), the empty string and the number zero
are falsy; a `Quantity` is a float subclass, falsy exactly when its value is
zero. -/
def jvalTruthy : JVal → Bool
  | .absent => false
  | .null => false
  | .str s => s ≠ ""
  | .num r => r ≠ 0
  | .quant v _ => v ≠ 0

/-- Models `fmt.get(key, default)` followed by use as a string, for keys the
probe reports as strings (such as `format_id`, which yt-dlp always emits as a
string): an absent key yields the default.  A null or non-string value would
make the subsequent string method call raise in Python; those shapes do not
occur for the string-typed keys this helper is applied to, and are mapped to
the default. -/
def jvalStrD (f : JVal) (d : String) : String :=
  match f with
  | .str s => s
  | _ => d

/-- Models the comparison `fmt.get(key, "none") != "none"` of lines 106 and
108: false when the key is absent (the default `"none"` compares equal) or
bound to the string `"none"`; true for any other value (a non-`"none"` string,
and any non-string value, since Python `!=` between different types is true). -/
def pyNeNone : JVal → Bool
  | .absent => false
  | .str s => s ≠ "none"
  | _ => true

/-- ASCII whitespace characters removed by Python `str.strip()`. -/
def pyIsWs (c : Char) : Bool :=
  c = ' ' || c = '\t' || c = '\n' || c = '\r' || c = '\x0b' || c = '\x0c'

/-- Python `str.strip()` restricted to ASCII whitespace: remove leading and
trailing whitespace characters. -/
def pyStrip (s : String) : String :=
  String.mk (((s.data.dropWhile pyIsWs).reverse.dropWhile pyIsWs).reverse)

/-- Python `str.isdigit()` over ASCII: true iff the string is non-empty and
every character is a decimal digit. -/
def pyIsdigit (s : String) : Bool := !s.data.isEmpty && s.data.all Char.isDigit

/-- The admission test of line 103: `fmt.get("format_id", "").strip().isdigit()`.
A format is selectable iff its id, stripped of surrounding whitespace, is a
non-empty digit string. -/
def selectable (fmt : Fmt) : Bool := pyIsdigit (pyStrip (jvalStrD fmt.format_id ""))

/-- The format-classifier loop of `request_ytdlp_metadata`, lines 102-109:
formats whose stripped id is not all digits are skipped; otherwise a format
with a non-`"none"` audio codec goes to the audio list, else one with a
non-`"none"` video codec goes to the video list, else it is dropped.
Returns (audio list, video list), in input order. -/
def classifyFormats : List Fmt → List Fmt × List Fmt
  | [] => ([], [])
  | fmt :: rest =>
    let r := classifyFormats rest
    if selectable fmt then
      if pyNeNone fmt.acodec then (fmt :: r.1, r.2)
      else if pyNeNone fmt.vcodec then (r.1, fmt :: r.2)
      else r
    else r

/-- The thumbnail-classifier loop of `request_ytdlp_metadata`, lines 111-113:
a thumbnail is kept iff `fmt.get("resolution")` is truthy. -/
def classifyThumbs (thumbs : List Thumb) : List Thumb :=
  thumbs.filter (fun t => jvalTruthy t.resolution)

/-- The audio predicate of the classifier: admitted and audio codec not
`"none"`. -/
def audioPred (fmt : Fmt) : Bool := selectable fmt && pyNeNone fmt.acodec

/-- The video predicate of the classifier: admitted, audio codec `"none"`
(or absent), and video codec not `"none"`. -/
def videoPred (fmt : Fmt) : Bool :=
  selectable fmt && !pyNeNone fmt.acodec && pyNeNone fmt.vcodec

/-- Python `float(value)` applied to a dictionary value, as an `Option`:
`None` (a missing key or null) raises `TypeError`, which `get_quantity`
catches, so it yields `none`; numbers and `Quantity` objects (float
subclasses) convert.  String inputs are modelled as unparseable (the probe
emits numbers or null, never numeric strings, for the attributes fed to
`get_quantity`). -/
def pyFloat? : JVal → Option Rat
  | .num r => some r
  | .quant v _ => some v
  | _ => none

/-- Embeds `get_quantity` (source lines 68-75): try to convert `number` to a
float; on failure return `info` when it was supplied, else fall back to the
number zero; on the success paths wrap the value in a `Quantity` carrying the
unit `model`. -/
def get_quantity (number : JVal) (model : String) (info : Option String) : JVal :=
  match pyFloat? number with
  | some r => .quant r model
  | none =>
    match info with
    | some i => .str i
    | none => .quant 0 model

/-- Decimal-style display of a rational: integers display as their integer
numeral, non-integers as a numerator/denominator pair.  (Python float repr
digits are abstracted; no claim depends on the digits of a non-zero,
non-integer value.) -/
def ratRepr (r : Rat) : String :=
  if r.den = 1 then toString r.num else toString r.num ++ "/" ++ toString r.den

/-- Modelled from the spec: the external `quantiphy` library scales a value
by a standard metric power of one thousand and picks the matching SI scale
letter ("standard metric-prefix scaling", spec section 4.3).  Returns the
scaled value and the scale letter; zero is rendered unscaled. -/
def siScale (r : Rat) : Rat × String :=
  let a := if r < 0 then -r else r
  if a = 0 then (0, "")
  else if (1000000000000 : Rat) ≤ a then (r / 1000000000000, "T")
  else if (1000000000 : Rat) ≤ a then (r / 1000000000, "G")
  else if (1000000 : Rat) ≤ a then (r / 1000000, "M")
  else if (1000 : Rat) ≤ a then (r / 1000, "k")
  else if (1 : Rat) ≤ a then (r, "")
  else if (1 : Rat) / 1000 ≤ a then (r * 1000, "m")
  else (r * 1000000, "u")

/-- Modelled from the spec: `str()` of a `quantiphy.Quantity` — the scaled
value followed, when there is one, by a space and the scale letter plus the
unit model (so `Quantity(0, "Hz")` displays as `"0 Hz"` and `Quantity(0, "")`
as `"0"`). -/
def quantityStr (value : Rat) (model : String) : String :=
  let s := siScale value
  let unit := s.2 ++ model
  if unit = "" then ratRepr s.1 else ratRepr s.1 ++ " " ++ unit

/-- Python `str(value)` for a dictionary value that is known to be present
(`str(None)` is `"None"`). -/
def strOfJVal : JVal → String
  | .absent => "None"
  | .null => "None"
  | .str s => s
  | .num r => ratRepr r
  | .quant v m => quantityStr v m

/-- Models `str(fmt.get(key, default))` as used in the menu f-strings of
lines 144 and 174: the default string for a missing key, else the string
form of the stored value. -/
def pyGetTok (f : JVal) (d : String) : String :=
  match f with
  | .absent => d
  | v => strOfJVal v

/-- Embeds the per-format mutation of `pick_yt_audio_format` (source lines
140-142): the loop writes the rendered `filesize`, `abr` and `asr` values
back into the format dictionary itself.  `filesize` and `abr` fall back to
the string `"N/A"` when absent; `asr` is given no fallback, so an absent
sample rate becomes `Quantity(0, "Hz")`. -/
def audioFmtUpdate (fmt : Fmt) : Fmt :=
  let f1 := { fmt with filesize := get_quantity fmt.filesize "B" (some "N/A") }
  let f2 := { f1 with abr := get_quantity f1.abr "" (some "N/A") }
  { f2 with asr := get_quantity f2.asr "Hz" none }

/-- Embeds `"{width}x{height}".format(**fmt)` (source line 172): keyword
lookup of `width` and `height` in the format dictionary raises `KeyError`
when the key is missing; otherwise the two values are displayed joined by
`"x"` (a present null displays as `"None"`). -/
def formatWxH (fmt : Fmt) : Except String String :=
  match fmt.width, fmt.height with
  | .absent, _ => .error "KeyError: width"
  | _, .absent => .error "KeyError: height"
  | w, h => .ok (strOfJVal w ++ "x" ++ strOfJVal h)

/-- Embeds the per-format mutation of `pick_yt_video_format` (source lines
170-172): the loop writes the rendered `filesize` and `vbr` values back into
the dictionary (`vbr` with no fallback, so an absent video bitrate becomes
`Quantity(0, "")`), then stores the `"{width}x{height}"` display string under
`wxh` — which raises when either key is missing, modelled as the error
branch. -/
def videoFmtUpdate (fmt : Fmt) : Except String Fmt :=
  let f1 := { fmt with filesize := get_quantity fmt.filesize "B" (some "N/A") }
  let f2 := { f1 with vbr := get_quantity f1.vbr "" none }
  match formatWxH f2 with
  | .error e => .error e
  | .ok s => .ok { f2 with wxh := .str s }

/-- Left-justified column padding, Python format spec `:<w`. -/
def padTok (s : String) (w : Nat) : String :=
  s ++ String.mk (List.replicate (w - s.data.length) ' ')

/-- The audio menu option line of source line 144, built from an
already-updated format dictionary. -/
def audioLine (fmt : Fmt) : String :=
  "id: " ++ padTok (pyGetTok fmt.format_id "N/A") 5 ++
  "  codec: " ++ padTok (pyGetTok fmt.acodec "N/A") 10 ++
  "  ext: " ++ padTok (pyGetTok fmt.audio_ext "N/A") 5 ++
  "  lang: " ++ padTok (pyGetTok fmt.language "N/A") 3 ++
  "  bitrate: " ++ padTok (pyGetTok fmt.abr "N/A") 7 ++
  "  sample rate: " ++ padTok (pyGetTok fmt.asr "N/A") 10 ++
  "  filesize: " ++ padTok (pyGetTok fmt.filesize "N/A") 10

/-- The video menu option line of source line 174, built from an
already-updated format dictionary. -/
def videoLine (fmt : Fmt) : String :=
  "id: " ++ padTok (pyGetTok fmt.format_id "N/A") 5 ++
  "  codec: " ++ padTok (pyGetTok fmt.vcodec "N/A") 15 ++
  "  ext: " ++ padTok (pyGetTok fmt.video_ext "N/A") 5 ++
  "  format: " ++ padTok (pyGetTok fmt.wxh "N/A") 10 ++
  "  bitrate: " ++ padTok (pyGetTok fmt.vbr "N/A") 10 ++
  "  fps: " ++ padTok (pyGetTok fmt.fps "N/A") 4 ++
  "  filesize: " ++ padTok (pyGetTok fmt.filesize "N/A") 10

/-- The effect of one `pick_yt_audio_format` call on the audio candidate
list it was handed (source lines 139-145): every element is mutated in place
by the rendering loop.  The elements are the same dictionary objects held by
the probe metadata, so this is also the effect on the fetched metadata. -/
def pickAudioEffect (formats : List Fmt) : List Fmt :=
  formats.map audioFmtUpdate

/-- The effect of one `pick_yt_video_format` call on the video candidate
list (source lines 169-175): each element is mutated in place in order, and
a missing `width`/`height` key aborts the call with the raised error. -/
def pickVideoEffect : List Fmt → Except String (List Fmt)
  | [] => .ok []
  | f :: rest =>
    match videoFmtUpdate f with
    | .error e => .error e
    | .ok f2 =>
      match pickVideoEffect rest with
      | .error e => .error e
      | .ok rest2 => .ok (f2 :: rest2)

/-- Python truthiness of a selector result (`None`, or a string: a format id
or a sentinel such as `"bestaudio"`).  `None` and the empty string are falsy. -/
def pyTruthy : Option String → Bool
  | none => false
  | some s => s ≠ ""

/-- Drop from the last component-internal `.` of a reversed character list:
`some` of the remaining reversed stem when a dot exists, `none` otherwise. -/
def dropExtRev : List Char → Option (List Char)
  | [] => none
  | c :: rest => if c = '.' then some rest else dropExtRev rest

/-- `pathlib.Path.with_suffix`: replace the extension after the last `.` of
the name with `suffix`, or append `suffix` when the name has no extension (no
dot, or only a leading dot as in a hidden file). -/
def withSuffix (name : String) (suffix : String) : String :=
  match dropExtRev name.data.reverse with
  | none => name ++ suffix
  | some revStem => if revStem.isEmpty then name ++ suffix else String.mk revStem.reverse ++ suffix

/-- The thumbnail-selection-to-flags mapping of `pick_yt_thumbnail_format`
(source lines 217-222): `"best"` requests a separate thumbnail file converted
to jpg, `"embed"` requests embedding, anything else adds no flags. -/
def thumbnailArgs (sel : Option String) : List String :=
  if sel = some "best" then ["--write-thumbnail", "--convert-thumbnails", "jpg"]
  else if sel = some "embed" then ["--embed-thumbnail"]
  else []

/-- Python `"+".join` over the truthy selections, i.e.
`"+".join(filter(bool, [audio_format, video_format]))` of source line 274. -/
def joinPlus : List String → String
  | [] => ""
  | [s] => s
  | s :: rest => s ++ "+" ++ joinPlus rest

/-- The derived download plan: format expression, extra flags, predicted
output path and the audio-only decision (spec section 3, DownloadPlan). -/
structure DownloadPlan where
  audioOnly : Bool
  extraArgs : List String
  fmtExpr : String
  predictedPath : String
deriving DecidableEq, Repr

/-- Embeds the invocation-builder tail of `main` (source lines 264-274):
`audio_only = (audio_format and not video_format)` by Python truthiness; the
thumbnail flags are extended with either the audio-extraction flags (and a
`.mp3` predicted path) or the merge flags (and a `.mp4` predicted path); the
format expression joins the truthy selections, audio first, with `"+"`. -/
def buildPlan (audioFormat videoFormat : Option String) (thumbArgs : List String)
    (filename : String) : DownloadPlan :=
  let audioOnly := pyTruthy audioFormat && !pyTruthy videoFormat
  let args :=
    if audioOnly then thumbArgs ++ ["-x", "--audio-format", "mp3"]
    else thumbArgs ++ ["--merge-output-format", "mp4"]
  let path :=
    if audioOnly then withSuffix filename ".mp3" else withSuffix filename ".mp4"
  let selections := ([audioFormat, videoFormat].filter pyTruthy).map (fun o => o.getD "")
  { audioOnly := audioOnly, extraArgs := args,
    fmtExpr := joinPlus selections, predictedPath := path }

/-- The command line built by `ytdlp_download` (source line 119):
`[CONFIG["ytdlp_bin"], "-f", fmt, yturl, *ytdlp_args]` with the configured
binary name `"yt-dlp"`. -/
def downloadCommand (fmt : String) (yturl : String) (ytdlpArgs : List String) : List String :=
  ["yt-dlp", "-f", fmt, yturl] ++ ytdlpArgs

/-- The complete download command `main` issues for given selections: the
plan is built from the selections and the thumbnail flag list, and the
download is invoked unconditionally with its format expression and flags
(source line 275). -/
def mainDownloadCommand (audioFormat videoFormat thumbSel : Option String)
    (yturl filename : String) : List String :=
  let plan := buildPlan audioFormat videoFormat (thumbnailArgs thumbSel) filename
  downloadCommand plan.fmtExpr yturl plan.extraArgs

/-- The observed outcome of the probe process spawned by
`request_ytdlp_metadata` (source lines 92-93): its exit code, its parsed
JSON stdout (the `formats` and `thumbnails` lists and the reported default
filename), and its captured stderr. -/
structure ProbeProc where
  returncode : Int
  formats : List Fmt
  thumbnails : List Thumb
  filename : String
  stderr : String

/-- The classified metadata returned on success (the `formats` dictionary of
source line 100). -/
structure ClassifiedMeta where
  audio : List Fmt
  video : List Fmt
  image : List Thumb
  filename : String
deriving DecidableEq, Repr

/-- Embeds `request_ytdlp_metadata` (source lines 90-115) over the observed
probe process: a non-zero exit code prints the captured stderr and terminates
the run via `exit()` — modelled as an `Except.error` carrying exactly the
surfaced stderr, with no metadata produced; otherwise the parsed metadata is
classified and returned. -/
def request_ytdlp_metadata (process : ProbeProc) : Except String ClassifiedMeta :=
  if process.returncode ≠ 0 then .error process.stderr
  else
    let fs := classifyFormats process.formats
    .ok { audio := fs.1, video := fs.2,
          image := classifyThumbs process.thumbnails, filename := process.filename }

/-- A typical audio-only format descriptor as the probe reports it: digit id,
audio codec present, the numeric attributes absent. -/
def fmtOpus : Fmt := { format_id := .str "140", acodec := .str "opus", audio_ext := .str "m4a" }

/-- A format descriptor carrying an audio codec but a non-digit id. -/
def fmtNonDigit : Fmt := { format_id := .str "sb0", acodec := .str "opus" }

/-- A format descriptor whose id is a digit string padded with a leading
space. -/
def fmtPadded : Fmt := { format_id := .str " 137", acodec := .str "opus" }

/-- A typical video-only format descriptor: digit id, audio codec `"none"`,
video codec and dimensions present, bitrate and fps absent. -/
def fmtAvc : Fmt :=
  { format_id := .str "137", acodec := .str "none", vcodec := .str "avc1",
    width := .num 1920, height := .num 1080 }

/-- `fmtAvc` after the rendering loop of the video selector has written the
rendered `filesize`, `vbr` and `wxh` values into it. -/
def fmtAvcUpdated : Fmt :=
  { format_id := .str "137", acodec := .str "none", vcodec := .str "avc1",
    width := .num 1920, height := .num 1080,
    filesize := .str "N/A", vbr := .quant 0 "", wxh := .str "1920x1080" }

/-- A thumbnail descriptor whose `resolution` key is present but bound to the
empty string. -/
def thumbEmptyRes : Thumb := { url := .str "http://e", resolution := .str "" }

/-- A thumbnail descriptor with a non-empty resolution. -/
def thumbRes : Thumb := { url := .str "http://t", resolution := .str "640x480" }

theorem classifyFormats_eq_filter (l : List Fmt) :
    classifyFormats l = (l.filter audioPred, l.filter videoPred) := by
  induction l with
  | nil => rfl
  | cons fmt rest ih =>
    simp only [classifyFormats, ih]
    by_cases hs : selectable fmt = true
    · by_cases ha : pyNeNone fmt.acodec = true
      · simp [audioPred, videoPred, hs, ha, List.filter_cons]
      · by_cases hv : pyNeNone fmt.vcodec = true
        · simp [audioPred, videoPred, hs, ha, hv, List.filter_cons]
        · simp [audioPred, videoPred, hs, ha, hv, List.filter_cons]
    · simp [audioPred, videoPred, hs, List.filter_cons]

/-- C1 counterexample: with audio selection `"140"` and video selection
`"137"`, the format expression the builder produces is `"140+137"` — the
audio id comes first — and in particular it is not the claimed `"137+140"`. -/
theorem fmt_expr_not_video_first :
    (buildPlan (some "140") (some "137") [] "clip.webm").fmtExpr = "140+137" ∧
    (buildPlan (some "140") (some "137") [] "clip.webm").fmtExpr ≠ "137+140" := by
  decide

/-- C1 (amended): for audio selection `"140"` and video selection `"137"`,
the format expression is exactly `"140+137"` (audio id first, then video id,
joined with `"+"` — the established join order), and the predicted output
path gets extension `.mp4` with the merge flags. -/
theorem fmt_expr_audio_first_instance :
    (buildPlan (some "140") (some "137") [] "clip.webm").fmtExpr = "140+137" ∧
    (buildPlan (some "140") (some "137") [] "clip.webm").predictedPath = "clip.mp4" ∧
    (buildPlan (some "140") (some "137") [] "clip.webm").extraArgs =
      ["--merge-output-format", "mp4"] := by
  decide

/-- C4 counterexample: a format descriptor whose audio codec is not `"none"`
but whose id is not all digits is not placed in the audio candidate list, so
the claim does not hold for every descriptor with a non-`"none"` audio codec. -/
theorem nondigit_audio_fmt_not_in_audio_list :
    pyNeNone fmtNonDigit.acodec = true ∧
    fmtNonDigit ∉ (classifyFormats [fmtNonDigit]).1 := by
  decide

/-- C4 (amended): a format descriptor with a non-`"none"` audio codec is
never placed in the video candidate list, and when its id passes the all-digit
admission test it is placed in the audio candidate list (the audio predicate
is checked before the video predicate). -/
theorem audio_codec_classification (l : List Fmt) (fmt : Fmt)
    (ha : pyNeNone fmt.acodec = true) :
    fmt ∉ (classifyFormats l).2 ∧
    (fmt ∈ l → selectable fmt = true → fmt ∈ (classifyFormats l).1) := by
  constructor
  · intro hmem
    rw [classifyFormats_eq_filter] at hmem
    simp only [List.mem_filter, videoPred] at hmem
    rcases hmem with ⟨-, hp⟩
    simp [ha] at hp
  · intro hmem hs
    rw [classifyFormats_eq_filter]
    simp only [List.mem_filter, audioPred]
    exact ⟨hmem, by simp [hs, ha]⟩

/-- Witness for `audio_codec_classification` at the concrete descriptor
`fmtOpus` in a singleton formats list. -/
theorem audio_codec_classification_witness :
    pyNeNone fmtOpus.acodec = true ∧
    fmtOpus ∉ (classifyFormats [fmtOpus]).2 ∧
    fmtOpus ∈ (classifyFormats [fmtOpus]).1 :=
  ⟨by decide,
   (audio_codec_classification [fmtOpus] fmtOpus (by decide)).1,
   (audio_codec_classification [fmtOpus] fmtOpus (by decide)).2 (by decide) (by decide)⟩

/-- C5 counterexample: the id `" 137"` is not an all-digit string, yet the
classifier admits the descriptor into the audio candidate list, because the
code strips surrounding whitespace before the digit test. -/
theorem padded_id_admitted :
    pyIsdigit " 137" = false ∧
    fmtPadded ∈ (classifyFormats [fmtPadded]).1 := by
  decide

/-- C5 (amended): every format descriptor whose id, after stripping leading
and trailing whitespace, is not a non-empty all-digit string is excluded from
both the audio and the video candidate lists. -/
theorem nonselectable_excluded_both (l : List Fmt) (fmt : Fmt)
    (hs : selectable fmt = false) :
    fmt ∉ (classifyFormats l).1 ∧ fmt ∉ (classifyFormats l).2 := by
  rw [classifyFormats_eq_filter]
  constructor <;> intro hmem <;>
    simp only [List.mem_filter, audioPred, videoPred] at hmem <;>
    rcases hmem with ⟨-, hp⟩ <;> simp [hs] at hp

/-- Witness for `nonselectable_excluded_both` at the concrete descriptor
`fmtNonDigit` in a singleton formats list. -/
theorem nonselectable_excluded_both_witness :
    selectable fmtNonDigit = false ∧
    fmtNonDigit ∉ (classifyFormats [fmtNonDigit]).1 ∧
    fmtNonDigit ∉ (classifyFormats [fmtNonDigit]).2 :=
  ⟨by decide,
   (nonselectable_excluded_both [fmtNonDigit] fmtNonDigit (by decide)).1,
   (nonselectable_excluded_both [fmtNonDigit] fmtNonDigit (by decide)).2⟩

/-- C6 counterexample: a thumbnail descriptor whose `resolution` attribute is
present but equal to the empty string is excluded from the thumbnail
candidate list, so membership is not the predicate "resolution is present". -/
theorem empty_resolution_excluded :
    thumbEmptyRes.resolution ≠ .absent ∧
    thumbEmptyRes ∉ classifyThumbs [thumbEmptyRes] := by
  decide

/-- C6 (amended): membership of a thumbnail descriptor in the thumbnail
candidate list is exactly the predicate "the resolution attribute is present
and truthy" — a descriptor with an absent, null, or empty-string resolution
is excluded, and every other descriptor from the input list is included. -/
theorem thumb_mem_iff_truthy_resolution (l : List Thumb) (t : Thumb) :
    t ∈ classifyThumbs l ↔ t ∈ l ∧ jvalTruthy t.resolution = true := by
  simp [classifyThumbs, List.mem_filter]

/-- Witness for `thumb_mem_iff_truthy_resolution` at a concrete descriptor
with a non-empty resolution. -/
theorem thumb_mem_iff_truthy_resolution_witness :
    thumbRes ∈ classifyThumbs [thumbRes] :=
  (thumb_mem_iff_truthy_resolution [thumbRes] thumbRes).mpr ⟨by decide, by decide⟩

/-- C8: when both the audio and the video selection are none, the workflow
does not reject the combination — `audio_only` is falsy, the format
expression is the empty string, the merge flags are still appended, and the
download command is issued with the empty format expression. -/
theorem both_none_still_downloads :
    (buildPlan none none (thumbnailArgs none) "clip.webm").audioOnly = false ∧
    (buildPlan none none (thumbnailArgs none) "clip.webm").fmtExpr = "" ∧
    (buildPlan none none (thumbnailArgs none) "clip.webm").extraArgs =
      ["--merge-output-format", "mp4"] ∧
    mainDownloadCommand none none none "URL" "clip.webm" =
      ["yt-dlp", "-f", "", "URL", "--merge-output-format", "mp4"] := by
  decide

/-- C9: whenever the probe process exits with non-zero status, the metadata
fetch fails fatally: the result is the error carrying exactly the captured
stderr (which `main` prints before terminating), and no classified metadata
is produced. -/
theorem probe_failure_fatal (p : ProbeProc) (h : p.returncode ≠ 0) :
    request_ytdlp_metadata p = .error p.stderr := by
  simp [request_ytdlp_metadata, h]

/-- Witness for `probe_failure_fatal` at a concrete failing probe process. -/
theorem probe_failure_fatal_witness :
    (ProbeProc.mk 1 [] [] "clip.webm" "ERROR: video unavailable").returncode ≠ 0 ∧
    request_ytdlp_metadata (ProbeProc.mk 1 [] [] "clip.webm" "ERROR: video unavailable") =
      .error "ERROR: video unavailable" :=
  ⟨by decide, probe_failure_fatal _ (by decide)⟩

theorem pyTruthy_some_ne (s : String) (h : s ≠ "") : pyTruthy (some s) = true := by
  simp [pyTruthy, h]

theorem pyTruthy_none_eq : pyTruthy none = false := rfl

/-- Fields of the updated dictionary produced by a successful
`videoFmtUpdate`: `filesize` and `vbr` hold the rendered quantities, `wxh`
the display string, and every other key is untouched. -/
theorem videoFmtUpdate_ok_fields (fmt fmt2 : Fmt) (h : videoFmtUpdate fmt = .ok fmt2) :
    fmt2.filesize = get_quantity fmt.filesize "B" (some "N/A") ∧
    fmt2.vbr = get_quantity fmt.vbr "" none ∧
    fmt2.fps = fmt.fps ∧
    fmt2.format_id = fmt.format_id ∧
    fmt2.acodec = fmt.acodec ∧
    fmt2.vcodec = fmt.vcodec ∧
    fmt2.audio_ext = fmt.audio_ext ∧
    fmt2.video_ext = fmt.video_ext ∧
    fmt2.language = fmt.language ∧
    fmt2.abr = fmt.abr ∧
    fmt2.asr = fmt.asr ∧
    fmt2.width = fmt.width ∧
    fmt2.height = fmt.height := by
  simp only [videoFmtUpdate] at h
  split at h
  · exact absurd h (by simp)
  · injection h with h2
    subst h2
    simp

/-- C2: `audio_only` is truthy iff the audio selection is non-none and the
video selection is none (selections are `None` or non-empty strings); when it
is truthy the audio-extraction flags `-x --audio-format mp3` are appended and
the predicted path gets extension `.mp3`; otherwise the flags
`--merge-output-format mp4` are appended and the predicted path gets
extension `.mp4`. -/
theorem audio_only_iff_flags (a v : Option String) (ha : a ≠ some "") (hv : v ≠ some "")
    (targs : List String) (fn : String) :
    ((buildPlan a v targs fn).audioOnly = true ↔ a ≠ none ∧ v = none) ∧
    ((buildPlan a v targs fn).audioOnly = true →
      (buildPlan a v targs fn).extraArgs = targs ++ ["-x", "--audio-format", "mp3"] ∧
      (buildPlan a v targs fn).predictedPath = withSuffix fn ".mp3") ∧
    ((buildPlan a v targs fn).audioOnly = false →
      (buildPlan a v targs fn).extraArgs = targs ++ ["--merge-output-format", "mp4"] ∧
      (buildPlan a v targs fn).predictedPath = withSuffix fn ".mp4") := by
  cases a with
  | none =>
    cases v with
    | none => simp [buildPlan, pyTruthy_none_eq]
    | some t =>
      have ht : t ≠ "" := fun h2 => hv (by rw [h2])
      simp [buildPlan, pyTruthy_none_eq, pyTruthy_some_ne t ht]
  | some s =>
    have hs : s ≠ "" := fun h2 => ha (by rw [h2])
    cases v with
    | none => simp [buildPlan, pyTruthy_none_eq, pyTruthy_some_ne s hs]
    | some t =>
      have ht : t ≠ "" := fun h2 => hv (by rw [h2])
      simp [buildPlan, pyTruthy_some_ne s hs, pyTruthy_some_ne t ht]

/-- Witness for `audio_only_iff_flags` at audio `"140"`, video none. -/
theorem audio_only_iff_flags_witness :
    (some "140" : Option String) ≠ some "" ∧ (none : Option String) ≠ some "" ∧
    (buildPlan (some "140") none [] "clip.webm").audioOnly = true ∧
    (buildPlan (some "140") none [] "clip.webm").extraArgs = ["-x", "--audio-format", "mp3"] ∧
    (buildPlan (some "140") none [] "clip.webm").predictedPath = "clip.mp3" := by
  have h := audio_only_iff_flags (some "140") none (by decide) (by decide) [] "clip.webm"
  have hao : (buildPlan (some "140") none [] "clip.webm").audioOnly = true :=
    h.1.mpr ⟨by decide, rfl⟩
  exact ⟨by decide, by decide, hao, (h.2.1 hao).1.trans (by decide),
    (h.2.1 hao).2.trans (by decide)⟩

/-- C3 counterexample: a format descriptor that the classifier placed in the
audio candidate list is modified by the audio selector invocation — the
rendering loop writes the rendered `filesize`, `abr` and `asr` values back
into the fetched dictionary, so the probe metadata is not immutable. -/
theorem audio_selector_mutates_formats :
    classifyFormats [fmtOpus] = ([fmtOpus], []) ∧
    pickAudioEffect [fmtOpus] ≠ [fmtOpus] := by
  decide

/-- C3 (amended): the selector invocations do mutate the fetched format
dictionaries, but only the rendering keys: the audio selector overwrites
`filesize`, `abr` and `asr` and the video selector overwrites `filesize`,
`vbr` and `wxh`, while every other attribute (id, codecs, extensions,
language, fps, dimensions) keeps its fetched value. -/
theorem selector_mutation_scope (fmt fmt2 : Fmt) (h : videoFmtUpdate fmt = .ok fmt2) :
    ((audioFmtUpdate fmt).format_id = fmt.format_id ∧
     (audioFmtUpdate fmt).acodec = fmt.acodec ∧
     (audioFmtUpdate fmt).vcodec = fmt.vcodec ∧
     (audioFmtUpdate fmt).audio_ext = fmt.audio_ext ∧
     (audioFmtUpdate fmt).video_ext = fmt.video_ext ∧
     (audioFmtUpdate fmt).language = fmt.language ∧
     (audioFmtUpdate fmt).vbr = fmt.vbr ∧
     (audioFmtUpdate fmt).fps = fmt.fps ∧
     (audioFmtUpdate fmt).width = fmt.width ∧
     (audioFmtUpdate fmt).height = fmt.height ∧
     (audioFmtUpdate fmt).wxh = fmt.wxh) ∧
    (fmt2.format_id = fmt.format_id ∧
     fmt2.acodec = fmt.acodec ∧
     fmt2.vcodec = fmt.vcodec ∧
     fmt2.audio_ext = fmt.audio_ext ∧
     fmt2.video_ext = fmt.video_ext ∧
     fmt2.language = fmt.language ∧
     fmt2.abr = fmt.abr ∧
     fmt2.asr = fmt.asr ∧
     fmt2.fps = fmt.fps ∧
     fmt2.width = fmt.width ∧
     fmt2.height = fmt.height) := by
  constructor
  · simp [audioFmtUpdate]
  · obtain ⟨hfs, hvbr, hfps, hid, hac, hvc, hae, hve, hlang, habr, hasr, hw, hh⟩ :=
      videoFmtUpdate_ok_fields fmt fmt2 h
    exact ⟨hid, hac, hvc, hae, hve, hlang, habr, hasr, hfps, hw, hh⟩

/-- Witness for `selector_mutation_scope` at the concrete video descriptor
`fmtAvc`. -/
theorem selector_mutation_scope_witness :
    videoFmtUpdate fmtAvc = .ok fmtAvcUpdated ∧
    fmtAvcUpdated.format_id = fmtAvc.format_id ∧
    (audioFmtUpdate fmtAvc).acodec = fmtAvc.acodec :=
  ⟨by rfl, (selector_mutation_scope fmtAvc fmtAvcUpdated (by rfl)).2.1,
   (selector_mutation_scope fmtAvc fmtAvcUpdated (by rfl)).1.2.1⟩

/-- C7 counterexample: in the rendered audio candidate line, the sample-rate
attribute of a descriptor without one is not the literal token `"N/A"` — the
rendering writes `Quantity(0, "Hz")`, which displays as `"0 Hz"` — because
`get_quantity` is called for `asr` without an `"N/A"` fallback. -/
theorem absent_sample_rate_not_na :
    fmtOpus.asr = .absent ∧
    pyGetTok (audioFmtUpdate fmtOpus).asr "N/A" = "0 Hz" ∧
    ("0 Hz" : String) ≠ "N/A" := by
  decide

/-- C7 (amended): in the rendered candidate lines, absent `filesize` and
audio bitrate render as the literal token `"N/A"` and absent `fps` renders as
`"N/A"` via the f-string default, but an absent sample rate renders as the
zero quantity `"0 Hz"` and an absent video bitrate as `"0"` (no fallback is
passed for them); numeric values present are rendered as metric-prefix-scaled
quantities, except `fps`, which is rendered as the plain number. -/
theorem menu_token_rendering (fmt : Fmt) :
    (fmt.filesize = .absent → pyGetTok (audioFmtUpdate fmt).filesize "N/A" = "N/A") ∧
    (fmt.abr = .absent → pyGetTok (audioFmtUpdate fmt).abr "N/A" = "N/A") ∧
    (fmt.asr = .absent → pyGetTok (audioFmtUpdate fmt).asr "N/A" = "0 Hz") ∧
    (∀ r, fmt.filesize = .num r →
      pyGetTok (audioFmtUpdate fmt).filesize "N/A" = quantityStr r "B") ∧
    (∀ r, fmt.abr = .num r → pyGetTok (audioFmtUpdate fmt).abr "N/A" = quantityStr r "") ∧
    (∀ r, fmt.asr = .num r → pyGetTok (audioFmtUpdate fmt).asr "N/A" = quantityStr r "Hz") ∧
    (∀ fmt2, videoFmtUpdate fmt = .ok fmt2 →
      (fmt.filesize = .absent → pyGetTok fmt2.filesize "N/A" = "N/A") ∧
      (fmt.vbr = .absent → pyGetTok fmt2.vbr "N/A" = "0") ∧
      (∀ r, fmt.vbr = .num r → pyGetTok fmt2.vbr "N/A" = quantityStr r "") ∧
      (fmt.fps = .absent → pyGetTok fmt2.fps "N/A" = "N/A") ∧
      (∀ r, fmt.fps = .num r → pyGetTok fmt2.fps "N/A" = ratRepr r)) := by
  have hfs : (audioFmtUpdate fmt).filesize = get_quantity fmt.filesize "B" (some "N/A") := rfl
  have habr : (audioFmtUpdate fmt).abr = get_quantity fmt.abr "" (some "N/A") := rfl
  have hasr : (audioFmtUpdate fmt).asr = get_quantity fmt.asr "Hz" none := rfl
  refine ⟨?_, ?_, ?_, ?_, ?_, ?_, ?_⟩
  · intro h; rw [hfs, h]; decide
  · intro h; rw [habr, h]; decide
  · intro h; rw [hasr, h]; decide
  · intro r h; rw [hfs, h]; rfl
  · intro r h; rw [habr, h]; rfl
  · intro r h; rw [hasr, h]; rfl
  · intro fmt2 h
    obtain ⟨h2fs, h2vbr, h2fps, -⟩ := videoFmtUpdate_ok_fields fmt fmt2 h
    refine ⟨?_, ?_, ?_, ?_, ?_⟩
    · intro h3; rw [h2fs, h3]; decide
    · intro h3; rw [h2vbr, h3]; decide
    · intro r h3; rw [h2vbr, h3]; rfl
    · intro h3; rw [h2fps, h3]; decide
    · intro r h3; rw [h2fps, h3]; rfl

/-- Witness for `menu_token_rendering` at the concrete descriptors `fmtOpus`
(absent sample rate) and `fmtAvc` (absent video bitrate). -/
theorem menu_token_rendering_witness :
    fmtOpus.asr = .absent ∧ pyGetTok (audioFmtUpdate fmtOpus).asr "N/A" = "0 Hz" ∧
    fmtOpus.abr = .absent ∧ pyGetTok (audioFmtUpdate fmtOpus).abr "N/A" = "N/A" ∧
    fmtAvc.vbr = .absent ∧ videoFmtUpdate fmtAvc = .ok fmtAvcUpdated ∧
    pyGetTok fmtAvcUpdated.vbr "N/A" = "0" :=
  ⟨rfl, (menu_token_rendering fmtOpus).2.2.1 rfl,
   rfl, (menu_token_rendering fmtOpus).2.1 rfl,
   rfl, by rfl,
   ((menu_token_rendering fmtAvc).2.2.2.2.2.2 fmtAvcUpdated (by rfl)).2.1 rfl⟩

/-- C10: the video selector option rendering is total exactly when every
video candidate carries both dimensions — building the `"{width}x{height}"`
display string raises (the error branch) iff the `width` or the `height` key
is missing from the dictionary, rather than rendering `"N/A"` the way the
other absent attributes are handled. -/
theorem video_wxh_requires_dims (fmt : Fmt) :
    (∃ e, videoFmtUpdate fmt = .error e) ↔
      (fmt.width = .absent ∨ fmt.height = .absent) := by
  cases hw : fmt.width <;> cases hh : fmt.height <;>
    simp [videoFmtUpdate, formatWxH, hw, hh]

/-- Witness for `video_wxh_requires_dims`: a descriptor with no dimension
keys makes the video rendering fail, and `fmtAvc` (both dimensions present)
does not. -/
theorem video_wxh_requires_dims_witness :
    (∃ e, videoFmtUpdate ({} : Fmt) = .error e) ∧
    ¬ (∃ e, videoFmtUpdate fmtAvc = .error e) :=
  ⟨(video_wxh_requires_dims ({} : Fmt)).mpr (Or.inl rfl),
   fun h2 => by
     have h3 := (video_wxh_requires_dims fmtAvc).mp h2
     rcases h3 with h3 | h3 <;> exact absurd h3 (by decide)⟩
